import Mathlib

/-
Verification development for the build-automation script `tasks.py` of the
rpi-pico-sao-host repository.  The script orchestrates the KiCad CLI to
validate a schematic / PCB design and export release artifacts.

The embedding below translates the script into pure Lean functions:

* The filesystem is an association list from paths (component lists) to an
  entry kind; `rm` and `clean` become explicit state transformers returning
  the new filesystem together with an optional error (a raised exception
  that escaped the function).
* Each tool-invocation function takes the exit status of its subprocess as
  input (the subprocess runner of the `invoke` library raises
  `UnexpectedExit` exactly when the exit status is nonzero) and returns the
  messages it prints, the commands it handed to the runner, and whether it
  returned normally or re-raised.
* The SVG-to-PNG helper takes the parse result of the external SVG library
  as input and returns its printed messages, its effects on the destination
  file, and the drawing it would render; Python float arithmetic on drawing
  dimensions is modelled with exact rationals.
* The `release` task (with its pre-tasks `env` and `check`) becomes a fixed
  list of steps run sequentially, aborting at the first failing step, which
  models exception propagation and the pre-task contract of the task runner.
-/

namespace Tasks

/-! ## Project identity constants (from the module-level constants) -/

def PROJECT_NAME : String := "RPi_Pico_SAO_Host"

def PROJECT_VERSION_MAJOR : String := "2"

/-- Path of the external CAD CLI.  The source probes two macOS install
locations on the host filesystem and falls back to the plain command name on
Windows and Linux; the claims do not depend on the macOS probe, so the model
fixes the default command name. -/
def KICAD_CLI : String := "kicad-cli"

/-! ## Filesystem model for the `rm` / `clean` operations -/

/-- A filesystem path, as its list of components.
`output/RPi_Pico_SAO_Host_v2` is `["output", "RPi_Pico_SAO_Host_v2"]`. -/
abbrev PathC := List String

/-- Kind of an existing filesystem entry, as seen by the `pathlib`
predicates used in `rm`: `is_symlink` is true for both symlink kinds,
`is_file` and `is_dir` follow symlinks, and `other` stands for an entry of
unrecognized type (device, socket, ...). -/
inductive FType
  | file
  | dir
  | symlinkToFile
  | symlinkToDir
  | other
deriving DecidableEq, Repr

/-- A filesystem: a finite association list from paths to entry kinds. -/
abbrev FS := List (PathC × FType)

/-- First entry of the filesystem at the given path, if any. -/
def lookupFS : FS → PathC → Option FType
  | [], _ => none
  | e :: rest, q => if e.1 = q then some e.2 else lookupFS rest q

/-- Python `Path.is_symlink()`. -/
def is_symlink (fs : FS) (p : PathC) : Bool :=
  match lookupFS fs p with
  | some FType.symlinkToFile => true
  | some FType.symlinkToDir => true
  | _ => false

/-- Python `Path.is_file()` (follows symlinks). -/
def is_file (fs : FS) (p : PathC) : Bool :=
  match lookupFS fs p with
  | some FType.file => true
  | some FType.symlinkToFile => true
  | _ => false

/-- Python `Path.is_dir()` (follows symlinks). -/
def is_dir (fs : FS) (p : PathC) : Bool :=
  match lookupFS fs p with
  | some FType.dir => true
  | some FType.symlinkToDir => true
  | _ => false

/-- Python `Path.unlink`: removes exactly the entry at the given path. -/
def unlinkFS (fs : FS) (p : PathC) : FS :=
  fs.filter (fun e => decide (e.1 ≠ p))

/-- `underPath root q` holds when `root` leads `q` componentwise, i.e.
`q` is `root` itself or lies inside the tree rooted at `root`. -/
def underPath : PathC → PathC → Bool
  | [], _ => true
  | _ :: _, [] => false
  | a :: rs, b :: qs => a == b && underPath rs qs

/-- Python `shutil.rmtree`: removes the directory and every entry below it
(every entry whose path extends the given path). -/
def rmtreeFS (fs : FS) (p : PathC) : FS :=
  fs.filter (fun e => !underPath p e.1)

/-- Errors that can escape `rm`, named after the Python exception raised. -/
inductive RmErr
  | isADirectory (p : PathC)
  | unknownFileType (p : PathC)
deriving DecidableEq, Repr

/-- One-component glob match as used by `fnmatch` under `Path.glob`:
`*` matches any run of characters, `?` matches one character, everything
else matches itself.  Character classes are not used by this project and
are omitted. -/
def globMatch (pat s : List Char) : Bool :=
  match pat, s with
  | [], [] => true
  | [], _ :: _ => false
  | '*' :: ps, [] => globMatch ps []
  | '*' :: ps, c :: cs => globMatch ps (c :: cs) || globMatch ('*' :: ps) cs
  | '?' :: _, [] => false
  | '?' :: ps, _ :: cs => globMatch ps cs
  | _ :: _, [] => false
  | a :: ps, c :: cs => (a == c) && globMatch ps cs
termination_by pat.length + s.length
decreasing_by
  all_goals simp_wf
  all_goals omega

/-- Python `path.parent.glob(path.name)`: the immediate children of the
parent directory whose final component matches the pattern. -/
def globExpand (fs : FS) (p : PathC) : List PathC :=
  let parent := p.dropLast
  let pat := (p.getLast?.getD "").toList
  (fs.filter (fun e =>
      !e.1.isEmpty && (e.1.dropLast == parent)
        && globMatch pat ((e.1.getLast?.getD "").toList))).map (fun e => e.1)

/-- Body of the `for p in paths` loop of `rm`, for one resolved path.
The `try`/`except` clauses of the source suppress every exception when
`force` is set, so the branches that raise return the error only when
`force` is false. -/
def rmOne (fs : FS) (p : PathC) (recursive force : Bool) : FS × Option RmErr :=
  if is_symlink fs p || is_file fs p then
    (unlinkFS fs p, none)
  else if is_dir fs p then
    if recursive then
      (rmtreeFS fs p, none)
    else if force then
      (fs, none)
    else
      (fs, some (RmErr.isADirectory p))
  else
    if force then (fs, none) else (fs, some (RmErr.unknownFileType p))

/-- The `for p in paths` loop of `rm`: an escaping exception aborts the
loop and propagates out of `rm`. -/
def rmLoop (recursive force : Bool) : FS → List PathC → FS × Option RmErr
  | fs, [] => (fs, none)
  | fs, q :: rest =>
    match rmOne fs q recursive force with
    | (fs', none) => rmLoop recursive force fs' rest
    | (fs', some err) => (fs', some err)

/-- The `rm` function of the source: resolves the path (glob expansion when
`use_glob` is set) and removes each resolved path in turn. -/
def rm (fs : FS) (p : PathC) (recursive force use_glob : Bool) : FS × Option RmErr :=
  rmLoop recursive force fs (if use_glob then globExpand fs p else [p])

/-! ## Output paths used by `clean` -/

/-- `OUTPUT_PATH = Path(f"output/{PROJECT_NAME}_v{PROJECT_VERSION_MAJOR}")`. -/
def OUTPUT_PATH : PathC := ["output", PROJECT_NAME ++ "_v" ++ PROJECT_VERSION_MAJOR]

/-- The KiCad backup directory `f"{PROJECT_NAME}-backups"` removed by
`clean` when `kicad_backups` or `all` is set. -/
def BACKUPS_DIR : PathC := [PROJECT_NAME ++ "-backups"]

/-- The `"fp-info-cache"` file removed by `clean` when `kicad_cache_files`
or `all` is set. -/
def FP_INFO_CACHE : PathC := ["fp-info-cache"]

/-- The list of paths the `clean` task builds before its removal loop. -/
def cleanPaths (kicad_backups kicad_cache_files all : Bool) : List PathC :=
  [OUTPUT_PATH]
    ++ (if kicad_backups || all then [BACKUPS_DIR] else [])
    ++ (if kicad_cache_files || all then [FP_INFO_CACHE] else [])

/-- The removal loop of `clean`: `rm(path, recursive=True, force=True)` for
each collected path, aborting if an exception escapes a call. -/
def cleanRun : FS → List PathC → FS × Option RmErr
  | fs, [] => (fs, none)
  | fs, p :: rest =>
    match rm fs p true true false with
    | (fs', none) => cleanRun fs' rest
    | (fs', some err) => (fs', some err)

/-- The `clean` task. -/
def clean (fs : FS) (kicad_backups kicad_cache_files all : Bool) : FS × Option RmErr :=
  cleanRun fs (cleanPaths kicad_backups kicad_cache_files all)

/-! ## SVG to PNG conversion helper -/

/-- The ReportLab drawing produced by `svglib.svg2rlg`, restricted to the
attributes the helper touches.  Python float dimensions are modelled with
exact rationals. -/
structure Drawing where
  width : ℚ
  height : ℚ
  renderScale : ℚ
deriving DecidableEq, Repr

/-- The scaling step of `svg_to_png` (executed when `scale` is given):
the larger dimension is scaled to `scale`, both dimensions are multiplied
by the same factor, and the render scale records the factor. -/
def scaleDrawing (scale : ℚ) (d : Drawing) : Drawing :=
  let max_dimension := max d.width d.height
  let scale_factor := scale / max_dimension
  ⟨d.width * scale_factor, d.height * scale_factor, scale_factor⟩

/-- Errors raised by `svg_to_png` (Python `ValueError`, with its message). -/
inductive SvgErr
  | valueError (msg : String)
deriving DecidableEq, Repr

/-- Observable result of one `svg_to_png` call: the messages printed, the
effects on the destination (parent-directory creation and the final write),
the escaping error if any, and the drawing handed to the renderer. -/
structure ConvRun where
  prints : List String
  ensuredDir : Bool
  wroteDest : Bool
  err : Option SvgErr
  finalDrawing : Option Drawing
deriving DecidableEq, Repr

/-- The `svg_to_png` helper.  `parsed` is the result of the external
`svglib.svg2rlg` call (`none` when parsing yields no drawing); `alpha` and
`dpi` only parameterize the external rasterizer and do not change the
control flow beyond the mutual-exclusion check. -/
def svg_to_png (svg_path png_path : String) (parsed : Option Drawing)
    (scale dpi : Option ℚ) (alpha : Bool) : ConvRun :=
  let pre := "Generating " ++ png_path ++ " from " ++ svg_path ++ "..."
  if scale.isSome && dpi.isSome then
    ⟨[pre], false, false, some (SvgErr.valueError "Cannot specify both scale and dpi"), none⟩
  else
    match parsed with
    | none =>
      ⟨[pre], false, false,
       some (SvgErr.valueError ("Failed to convert " ++ svg_path ++ " to ReportLab drawing")),
       none⟩
    | some drawing =>
      let d := match scale with
        | some s => scaleDrawing s drawing
        | none => drawing
      ⟨[pre], true, true, none, some d⟩

/-! ## Tool invocation layer -/

/-- Exit behavior of one tool-invocation function: it either returns
normally or the subprocess failure escapes it (after its `raise`). -/
inductive Outcome
  | returned
  | raised
deriving DecidableEq, Repr

/-- Observable result of one tool-invocation function: the console
messages the function itself prints, the commands handed to the subprocess
runner, and whether it returned normally or re-raised. -/
structure ToolRun where
  prints : List String
  cmds : List String
  outcome : Outcome
deriving DecidableEq, Repr

/-- Common `try`/`except UnexpectedExit` shape shared by the export
functions and the version query: run the command once; on exit status 0
return normally, otherwise print one diagnostic ending in the numeric exit
code and re-raise. -/
def toolRun (pre : List String) (cmd : String) (errText : String) (exited : Nat) : ToolRun :=
  if exited = 0 then
    ⟨pre, [cmd], Outcome.returned⟩
  else
    ⟨pre ++ [errText ++ toString exited ++ ")"], [cmd], Outcome.raised⟩

/-- `kicad_version`: the version query. -/
def kicad_version (exited : Nat) : ToolRun :=
  toolRun []
    (String.intercalate " " [KICAD_CLI, "version", "--format=about"])
    "\nERROR: KiCad version check failed with an unexpected exit code ("
    exited

/-- `schematic_erc`: runs ERC on the schematic; exit status 5 (violations
found) gets a dedicated message pointing at the report file, any other
nonzero status the generic diagnostic; both re-raise. -/
def schematic_erc (schematic_path report_path : String) (exited : Nat) : ToolRun :=
  let cmd := String.intercalate " "
    [KICAD_CLI, "sch", "erc", "--output=" ++ report_path,
     "--severity-warning", "--severity-error", "--exit-code-violations",
     schematic_path]
  if exited = 0 then
    ⟨["Running ERC on the schematic..."], [cmd], Outcome.returned⟩
  else if exited = 5 then
    ⟨["Running ERC on the schematic...",
      "\nERROR: ERC violations found in the schematic.",
      "Check " ++ report_path ++ " for details."], [cmd], Outcome.raised⟩
  else
    ⟨["Running ERC on the schematic...",
      "\nERROR: ERC failed with an unexpected exit code (" ++ toString exited ++ ")"],
     [cmd], Outcome.raised⟩

/-- `pcb_drc`: runs DRC on the PCB, with the same exit-status handling as
`schematic_erc`. -/
def pcb_drc (pcb_path report_path : String) (exited : Nat) : ToolRun :=
  let cmd := String.intercalate " "
    [KICAD_CLI, "pcb", "drc", "--output=" ++ report_path,
     "--schematic-parity", "--severity-warning", "--severity-error",
     "--exit-code-violations", pcb_path]
  if exited = 0 then
    ⟨["Running DRC on the PCB..."], [cmd], Outcome.returned⟩
  else if exited = 5 then
    ⟨["Running DRC on the PCB...",
      "\nERROR: DRC violations found in the PCB.",
      "Check " ++ report_path ++ " for details."], [cmd], Outcome.raised⟩
  else
    ⟨["Running DRC on the PCB...",
      "\nERROR: DRC failed with an unexpected exit code (" ++ toString exited ++ ")"],
     [cmd], Outcome.raised⟩

/-- `schematic_export_pdf`. -/
def schematic_export_pdf (schematic_path pdf_path : String) (exited : Nat) : ToolRun :=
  toolRun ["Exporting Schematic PDF..."]
    (String.intercalate " "
      [KICAD_CLI, "sch", "export", "pdf",
       "--output=\"" ++ pdf_path ++ "\"",
       "--black-and-white", "--no-background-color",
       "\"" ++ schematic_path ++ "\""])
    "\nERROR: PDF export from the schematic failed with an unexpected exit code ("
    exited

/-- `schematic_export_svg`. -/
def schematic_export_svg (schematic_path svg_path : String) (exited : Nat) : ToolRun :=
  toolRun ["Exporting Schematic SVG..."]
    (String.intercalate " "
      [KICAD_CLI, "sch", "export", "svg",
       "--output=\"" ++ svg_path ++ "\"",
       "--black-and-white", "--no-background-color",
       "\"" ++ schematic_path ++ "\""])
    "\nERROR: SVG export from the schematic failed with an unexpected exit code ("
    exited

/-- `schematic_export_bom`. -/
def schematic_export_bom (schematic_path bom_path : String) (exited : Nat) : ToolRun :=
  toolRun ["Exporting assembly BOM..."]
    (String.intercalate " "
      [KICAD_CLI, "sch", "export", "bom",
       "--output=\"" ++ bom_path ++ "\"",
       "--preset=\"Common Ground Electronics BOM\"",
       "--format-preset=\"CSV\"",
       "\"" ++ schematic_path ++ "\""])
    "\nERROR: BOM export from the schematic failed with an unexpected exit code ("
    exited

/-- `pcb_export_gerbers`. -/
def pcb_export_gerbers (pcb_path gerbers_path layers : String) (exited : Nat) : ToolRun :=
  toolRun ["Exporting Gerbers from the PCB..."]
    (String.intercalate " "
      [KICAD_CLI, "pcb", "export", "gerbers",
       "--output=" ++ gerbers_path, "--layers=" ++ layers,
       "--exclude-value", "--use-drill-file-origin", "--no-protel-ext",
       pcb_path])
    "\nERROR: Gerber export from the PCB failed with an unexpected exit code ("
    exited

/-- `pcb_export_odb` (its diagnostic reuses the Gerber wording, as in the
source). -/
def pcb_export_odb (pcb_path odb_path : String) (exited : Nat) : ToolRun :=
  toolRun ["Exporting ODB++ from the PCB..."]
    (String.intercalate " "
      [KICAD_CLI, "pcb", "export", "odb", "--output=" ++ odb_path, pcb_path])
    "\nERROR: Gerber export from the PCB failed with an unexpected exit code ("
    exited

/-- `pcb_export_pdf`, with its optional flags appended after the input
path exactly as the source builds the list. -/
def pcb_export_pdf (pcb_path pdf_path layers : String)
    (mirror multipage black_and_white : Bool) (exited : Nat) : ToolRun :=
  let cmd_list :=
    [KICAD_CLI, "pcb", "export", "pdf",
     "--output=" ++ pdf_path, "--layers=" ++ layers,
     "--exclude-value", "--include-border-title",
     "--common-layers=Edge.Cuts", "--drill-shape-opt=0", pcb_path]
    ++ (if mirror then ["--mirror"] else [])
    ++ (if multipage then ["--mode-multipage"] else ["--mode-separate"])
    ++ (if black_and_white then ["--black-and-white"] else [])
  toolRun ["Exporting PDF from the PCB..."]
    (String.intercalate " " cmd_list)
    "\nERROR: PDF export from the PCB failed with an unexpected exit code ("
    exited

/-- `pcb_export_drill`. -/
def pcb_export_drill (pcb_path drill_file_path : String) (exited : Nat) : ToolRun :=
  toolRun ["Exporting drill file from the PCB..."]
    (String.intercalate " "
      [KICAD_CLI, "pcb", "export", "drill",
       "--output=" ++ drill_file_path, "--drill-origin=plot", "--generate-map",
       pcb_path])
    "\nERROR: Drill file export from the PCB failed with an unexpected exit code ("
    exited

/-- `pcb_export_ipcd356`. -/
def pcb_export_ipcd356 (pcb_path ipcd356_path : String) (exited : Nat) : ToolRun :=
  toolRun ["Exporting IPC-D-356 netlist from the PCB..."]
    (String.intercalate " "
      [KICAD_CLI, "pcb", "export", "ipcd356", "--output=" ++ ipcd356_path, pcb_path])
    "\nERROR: IPC-D-356 netlist export from the PCB failed with an unexpected exit code ("
    exited

/-- `pcb_export_pos`. -/
def pcb_export_pos (pcb_path position_path : String) (exited : Nat) : ToolRun :=
  toolRun ["Exporting position file from the PCB..."]
    (String.intercalate " "
      [KICAD_CLI, "pcb", "export", "pos",
       "--output=" ++ position_path, "--use-drill-file-origin", pcb_path])
    "\nERROR: position file export from the PCB failed with an unexpected exit code ("
    exited

/-- `pcb_render` (its diagnostic reuses the IPC-D-356 wording, as in the
source). -/
def pcb_render (pcb_path render_path : String) (width height : Nat)
    (side background : String) (perspective : Bool) (zoom : Nat) (exited : Nat) : ToolRun :=
  let cmd_list :=
    [KICAD_CLI, "pcb", "render",
     "--output=" ++ render_path,
     "--width=" ++ toString width, "--height=" ++ toString height,
     "--side=" ++ side, "--background=" ++ background,
     "--zoom=" ++ toString zoom, pcb_path]
    ++ (if perspective then ["--perspective"] else [])
  toolRun ["Generating render from the PCB..."]
    (String.intercalate " " cmd_list)
    "\nERROR: IPC-D-356 netlist export from the PCB failed with an unexpected exit code ("
    exited

/-! ## The `release` task as a step sequence -/

/-- The externally-visible steps of a `release` invocation: the two
pre-tasks (`env` runs the version query; `check` runs ERC then DRC) and the
export calls of the task body, in source order.  The ODB++ export and the
render calls are commented out in the source and therefore absent. -/
inductive Step
  | envInfo
  | erc
  | drc
  | schPdf
  | schSvg
  | pngFull
  | pngThumb
  | bom
  | gerbers
  | drill
  | ipcd356
  | pdfFront
  | pdfBack
  | pos
deriving DecidableEq, Repr

/-- Steps of the `release` body (everything after the pre-tasks). -/
def isExport : Step → Bool
  | Step.envInfo => false
  | Step.erc => false
  | Step.drc => false
  | _ => true

/-- The full step sequence of `release`: the task declares
`pre=[env, check]`, so `env` (the version query) and `check` (ERC then DRC)
run before the body; the body calls follow in source order. -/
def releaseSteps : List Step :=
  [Step.envInfo, Step.erc, Step.drc,
   Step.schPdf, Step.schSvg, Step.pngFull, Step.pngThumb, Step.bom,
   Step.gerbers, Step.drill, Step.ipcd356, Step.pdfFront, Step.pdfBack, Step.pos]

/-- Sequential execution: each step runs after the previous one returned;
a failing step re-raises, so the steps after it never run.  The result is
the list of steps that were started. -/
def runSeq (fails : Step → Bool) : List Step → List Step
  | [] => []
  | s :: rest => if fails s then [s] else s :: runSeq fails rest

/-- The steps started by a `release` invocation whose individual step
failures are given by `fails`. -/
def releaseTrace (fails : Step → Bool) : List Step :=
  runSeq fails releaseSteps

/-! ## Concrete fixtures used by witnesses and counterexamples -/

/-- A filesystem holding one directory `d`. -/
def fsDirOnly : FS := [(["d"], FType.dir)]

/-- A filesystem holding a symlink to a directory and the target tree. -/
def fsLink : FS :=
  [(["lnk"], FType.symlinkToDir), (["target"], FType.dir), (["target", "f"], FType.file)]

/-- A filesystem with the output tree, the sibling backups directory and
the cache file, as in end-to-end scenario 1. -/
def fsSib : FS :=
  [(OUTPUT_PATH, FType.dir), (OUTPUT_PATH ++ ["Reports"], FType.dir),
   (BACKUPS_DIR, FType.dir), (FP_INFO_CACHE, FType.file)]

/-- A filesystem with one unrelated file. -/
def fsPlain : FS := [(["notes.txt"], FType.file)]

/-- The empty filesystem. -/
def fsEmpty : FS := []

/-- A 4 x 2 sample drawing. -/
def drawingSample : Drawing := ⟨4, 2, 1⟩

/-- Failure oracle where exactly the ERC step fails. -/
def ercFailOracle : Step → Bool := fun s => s == Step.erc

/-! ## Helper lemmas about the filesystem model -/

/-- A path always lies under itself. -/
theorem underPath_refl : ∀ p : PathC, underPath p p = true := by
  intro p
  induction p with
  | nil => rfl
  | cons a rest ih => simp [underPath, ih]

/-- Removing entries a predicate rejects does not change the lookup of a
path all of whose entries the predicate keeps. -/
theorem lookupFS_filter (keep : PathC × FType → Bool) (q : PathC) :
    ∀ fs : FS, (∀ e ∈ fs, e.1 = q → keep e = true) →
      lookupFS (fs.filter keep) q = lookupFS fs q := by
  intro fs
  induction fs with
  | nil => intro _; rfl
  | cons e rest ih =>
    intro h
    have hrest : ∀ e' ∈ rest, e'.1 = q → keep e' = true :=
      fun e' he' hq => h e' (List.mem_cons_of_mem e he') hq
    by_cases heq : e.1 = q
    · have hk : keep e = true := h e (List.mem_cons_self e rest) heq
      simp [List.filter_cons, hk, lookupFS, heq]
    · cases hk : keep e with
      | false => simp [List.filter_cons, hk, lookupFS, heq, ih hrest]
      | true => simp [List.filter_cons, hk, lookupFS, heq, ih hrest]

/-- With `force` set, the per-path body of `rm` never lets an exception
escape. -/
theorem rmOne_force_none (fs : FS) (p : PathC) (r : Bool) :
    (rmOne fs p r true).2 = none := by
  unfold rmOne
  by_cases h1 : (is_symlink fs p || is_file fs p) = true
  · simp [h1]
  · by_cases h2 : is_dir fs p = true
    · by_cases h3 : r = true <;> simp [h1, h2, h3]
    · simp [h1, h2]

/-- With `force` set, the removal loop never lets an exception escape. -/
theorem rmLoop_force_none (r : Bool) :
    ∀ (l : List PathC) (fs : FS), (rmLoop r true fs l).2 = none := by
  intro l
  induction l with
  | nil => intro fs; rfl
  | cons p rest ih =>
    intro fs
    rcases hE : rmOne fs p r true with ⟨fs', err⟩
    have herr : err = none := by
      have h := rmOne_force_none fs p r
      rw [hE] at h
      exact h
    subst herr
    simp [rmLoop, hE, ih]

/-- Without glob expansion, `rm` is exactly its per-path body. -/
theorem rm_no_glob (fs : FS) (p : PathC) (r f : Bool) :
    rm fs p r f false = rmOne fs p r f := by
  rcases hE : rmOne fs p r f with ⟨fs', err⟩
  cases err <;> simp [rm, rmLoop, hE]

/-- The per-path body of `rm` leaves every path outside the removed tree
untouched. -/
theorem rmOne_preserve (fs : FS) (p : PathC) (r f : Bool) (q : PathC)
    (hq : underPath p q = false) :
    lookupFS (rmOne fs p r f).1 q = lookupFS fs q := by
  have hqp : q ≠ p := by
    intro he
    subst he
    rw [underPath_refl] at hq
    cases hq
  unfold rmOne
  by_cases h1 : (is_symlink fs p || is_file fs p) = true
  · simp only [h1, if_true, unlinkFS]
    apply lookupFS_filter
    intro e _ heq
    simp only [heq, ne_eq, decide_eq_true_eq]
    exact hqp
  · by_cases h2 : is_dir fs p = true
    · by_cases h3 : r = true
      · simp only [h1, h2, h3, if_true, if_false, rmtreeFS]
        apply lookupFS_filter
        intro e _ heq
        simp [heq, hq]
      · by_cases h4 : f = true <;> simp [h1, h2, h3, h4]
    · by_cases h4 : f = true <;> simp [h1, h2, h4]

/-- A path under which no entry of the filesystem lies is absent. -/
theorem lookupFS_none (p : PathC) :
    ∀ fs : FS, (∀ e ∈ fs, underPath p e.1 = false) → lookupFS fs p = none := by
  intro fs
  induction fs with
  | nil => intro _; rfl
  | cons e rest ih =>
    intro h
    have he : underPath p e.1 = false := h e (List.mem_cons_self e rest)
    have hne : e.1 ≠ p := by
      intro heq
      rw [heq, underPath_refl p] at he
      cases he
    simp only [lookupFS, if_neg hne]
    exact ih fun e' h' => h e' (List.mem_cons_of_mem e h')

/-- With `force` set, the per-path body of `rm` is a no-op on an absent
path. -/
theorem rmOne_missing (fs : FS) (p : PathC) (r : Bool)
    (h : lookupFS fs p = none) : rmOne fs p r true = (fs, none) := by
  have h1 : is_symlink fs p = false := by simp [is_symlink, h]
  have h2 : is_file fs p = false := by simp [is_file, h]
  have h3 : is_dir fs p = false := by simp [is_dir, h]
  simp [rmOne, h1, h2, h3]

/-! ## Claims C3, C4, C10: the `rm` operation -/

/-- Claim C3, counterexample: on a filesystem holding the directory `d`,
`rm("d", recursive=False, force=True)` raises nothing and returns normally,
while the claim asserts the call fails for every value of the other flags;
the directory is still present afterwards. -/
theorem claim_C3_counterexample :
    (rm fsDirOnly ["d"] false true false).2 = none
      ∧ lookupFS (rm fsDirOnly ["d"] false true false).1 ["d"] = some FType.dir := by
  constructor <;> rfl

/-- Claim C3 (amended): removing an existing directory with
`recursive=False` and `use_glob=False` leaves the filesystem unchanged; it
fails with the needs-recursive condition (`IsADirectoryError`) when `force`
is false, but when `force` is true the error is suppressed by the tolerant
mode and the call returns normally.  In neither case is the directory
deleted. -/
theorem claim_C3_dir_needs_recursive (fs : FS) (p : PathC) (force : Bool)
    (h : lookupFS fs p = some FType.dir) :
    rm fs p false force false =
      (fs, if force then none else some (RmErr.isADirectory p)) := by
  have h1 : is_symlink fs p = false := by simp [is_symlink, h]
  have h2 : is_file fs p = false := by simp [is_file, h]
  have h3 : is_dir fs p = true := by simp [is_dir, h]
  rw [rm_no_glob]
  cases force <;> simp [rmOne, h1, h2, h3]

/-- Claim C3, witness. -/
theorem claim_C3_dir_needs_recursive_witness :
    rm fsDirOnly ["d"] false false false =
      (fsDirOnly, some (RmErr.isADirectory ["d"])) :=
  claim_C3_dir_needs_recursive fsDirOnly ["d"] false (by decide)

/-- Claim C4: removing a non-existent path with `force=True` raises no
error, for every value of the `recursive` and `use_glob` flags. -/
theorem claim_C4_force_missing_ok (fs : FS) (p : PathC) (recursive use_glob : Bool)
    (h : lookupFS fs p = none) :
    (rm fs p recursive true use_glob).2 = none := by
  unfold rm
  exact rmLoop_force_none recursive _ fs

/-- Claim C4, witness. -/
theorem claim_C4_force_missing_ok_witness :
    (rm fsEmpty ["missing.txt"] false true true).2 = none :=
  claim_C4_force_missing_ok fsEmpty ["missing.txt"] false true (by rfl)

/-- Claim C10: on a symbolic link (to a file or to a directory), `rm`
performs only an unlink of the link entry itself, raises nothing, and every
other path is untouched: the symlink check precedes the directory check, so
no recursive deletion happens through the link. -/
theorem claim_C10_symlink_unlink_only (fs : FS) (p : PathC) (recursive force : Bool)
    (h : lookupFS fs p = some FType.symlinkToFile
        ∨ lookupFS fs p = some FType.symlinkToDir) :
    rm fs p recursive force false = (unlinkFS fs p, none)
      ∧ ∀ q, q ≠ p → lookupFS (rm fs p recursive force false).1 q = lookupFS fs q := by
  have h1 : is_symlink fs p = true := by
    rcases h with h | h <;> simp [is_symlink, h]
  have hr : rm fs p recursive force false = (unlinkFS fs p, none) := by
    rw [rm_no_glob]
    simp [rmOne, h1]
  refine ⟨hr, ?_⟩
  intro q hq
  rw [hr]
  apply lookupFS_filter
  intro e _ heq
  simp only [heq, ne_eq, decide_eq_true_eq]
  exact hq

/-- Claim C10, witness: removing the symlink `lnk` (which points at the
directory `target`) deletes only the link entry. -/
theorem claim_C10_symlink_unlink_only_witness :
    rm fsLink ["lnk"] true false false = (unlinkFS fsLink ["lnk"], none) :=
  (claim_C10_symlink_unlink_only fsLink ["lnk"] true false (Or.inr (by decide))).1

/-! ## Claims C7, C8: the `clean` task -/

/-- The removal loop of `clean` never lets an exception escape (every call
passes `force=True`). -/
theorem cleanRun_none : ∀ (l : List PathC) (fs : FS), (cleanRun fs l).2 = none := by
  intro l
  induction l with
  | nil => intro fs; rfl
  | cons p rest ih =>
    intro fs
    rcases hE : rm fs p true true false with ⟨fs', err⟩
    have herr : err = none := by
      have h : (rm fs p true true false).2 = none := by
        unfold rm
        exact rmLoop_force_none true _ fs
      rw [hE] at h
      exact h
    subst herr
    simp [cleanRun, hE, ih]

/-- Claim C7: `clean` with all flags false passes exactly the output root
to the removal operation, and every path outside the output tree keeps its
entry; in particular the sibling backups directory and the cache file are
outside the output tree. -/
theorem claim_C7_clean_default_only_output :
    cleanPaths false false false = [OUTPUT_PATH]
      ∧ (∀ (fs : FS) (q : PathC), underPath OUTPUT_PATH q = false →
          lookupFS (clean fs false false false).1 q = lookupFS fs q)
      ∧ underPath OUTPUT_PATH BACKUPS_DIR = false
      ∧ underPath OUTPUT_PATH FP_INFO_CACHE = false := by
  refine ⟨rfl, ?_, by decide, by decide⟩
  intro fs q hq
  have hone := rmOne_force_none fs OUTPUT_PATH true
  rcases hE : rmOne fs OUTPUT_PATH true true with ⟨fs', err⟩
  rw [hE] at hone
  simp only at hone
  subst hone
  have hpres := rmOne_preserve fs OUTPUT_PATH true true q hq
  rw [hE] at hpres
  simp only [clean, cleanPaths, Bool.or_self, if_neg Bool.false_ne_true, List.append_nil,
    cleanRun, rm_no_glob, hE]
  exact hpres

/-- Claim C7, witness: on a filesystem with the output tree, the sibling
backups directory, and the cache file, the default `clean` leaves the
backups directory entry unchanged. -/
theorem claim_C7_clean_default_only_output_witness :
    lookupFS (clean fsSib false false false).1 BACKUPS_DIR = lookupFS fsSib BACKUPS_DIR :=
  claim_C7_clean_default_only_output.2.1 fsSib BACKUPS_DIR (by decide)

/-- Claim C8: `clean all=True` passes exactly the three paths (output
tree, backups directory, cache file) to the removal operation whatever the
other two flags are; the task never raises; and when none of the three
paths has any entry the filesystem is returned unchanged with no error. -/
theorem claim_C8_clean_all_three_paths :
    (∀ kb kcf : Bool, cleanPaths kb kcf true = [OUTPUT_PATH, BACKUPS_DIR, FP_INFO_CACHE])
      ∧ (∀ (fs : FS) (kb kcf : Bool), (clean fs kb kcf true).2 = none)
      ∧ (∀ (fs : FS) (kb kcf : Bool),
          (∀ e ∈ fs, underPath OUTPUT_PATH e.1 = false
            ∧ underPath BACKUPS_DIR e.1 = false
            ∧ underPath FP_INFO_CACHE e.1 = false) →
          clean fs kb kcf true = (fs, none)) := by
  have hpaths : ∀ kb kcf : Bool,
      cleanPaths kb kcf true = [OUTPUT_PATH, BACKUPS_DIR, FP_INFO_CACHE] := by
    intro kb kcf
    cases kb <;> cases kcf <;> rfl
  refine ⟨hpaths, ?_, ?_⟩
  · intro fs kb kcf
    exact cleanRun_none _ fs
  · intro fs kb kcf h
    have hOut : lookupFS fs OUTPUT_PATH = none :=
      lookupFS_none _ fs fun e he => (h e he).1
    have hBk : lookupFS fs BACKUPS_DIR = none :=
      lookupFS_none _ fs fun e he => (h e he).2.1
    have hCache : lookupFS fs FP_INFO_CACHE = none :=
      lookupFS_none _ fs fun e he => (h e he).2.2
    have e1 : rm fs OUTPUT_PATH true true false = (fs, none) := by
      rw [rm_no_glob]
      exact rmOne_missing fs _ true hOut
    have e2 : rm fs BACKUPS_DIR true true false = (fs, none) := by
      rw [rm_no_glob]
      exact rmOne_missing fs _ true hBk
    have e3 : rm fs FP_INFO_CACHE true true false = (fs, none) := by
      rw [rm_no_glob]
      exact rmOne_missing fs _ true hCache
    simp [clean, hpaths, cleanRun, e1, e2, e3]

/-- Claim C8, witness: `clean all=True` on a filesystem where none of the
three paths exists succeeds and changes nothing. -/
theorem claim_C8_clean_all_three_paths_witness :
    clean fsPlain false false true = (fsPlain, none) :=
  claim_C8_clean_all_three_paths.2.2 fsPlain false false (by decide)

/-! ## Claims C1, C9: exit-status handling of the tool invocation layer -/

/-- On a nonzero exit status, the common export shape prints its generic
diagnostic with the numeric code and re-raises. -/
theorem toolRun_ne_zero (pre : List String) (cmd errText : String) (e : Nat)
    (he : e ≠ 0) :
    toolRun pre cmd errText e =
      ⟨pre ++ [errText ++ toString e ++ ")"], [cmd], Outcome.raised⟩ := by
  simp [toolRun, he]

/-- The common export shape hands exactly one command to the subprocess
runner, whatever the exit status. -/
theorem toolRun_cmds (pre : List String) (cmd errText : String) (e : Nat) :
    (toolRun pre cmd errText e).cmds = [cmd] := by
  by_cases h : e = 0 <;> simp [toolRun, h]

/-- The ERC function runs its subprocess exactly once. -/
theorem schematic_erc_cmds_len (sp rp : String) (e : Nat) :
    (schematic_erc sp rp e).cmds.length = 1 := by
  by_cases h0 : e = 0
  · simp [schematic_erc, h0]
  · by_cases h5 : e = 5 <;> simp [schematic_erc, h0, h5]

/-- The DRC function runs its subprocess exactly once. -/
theorem pcb_drc_cmds_len (pp rp : String) (e : Nat) :
    (pcb_drc pp rp e).cmds.length = 1 := by
  by_cases h0 : e = 0
  · simp [pcb_drc, h0]
  · by_cases h5 : e = 5 <;> simp [pcb_drc, h0, h5]

/-- Claim C1: the ERC and DRC functions return normally exactly when the
exit status is 0, and on exit status 5 each prints the message naming the
configured report path and re-raises. -/
theorem claim_C1_erc_drc_exit_five (sp pp rp : String) (e : Nat) :
    ((schematic_erc sp rp e).outcome = Outcome.returned ↔ e = 0)
      ∧ ((pcb_drc pp rp e).outcome = Outcome.returned ↔ e = 0)
      ∧ (e = 5 →
          (schematic_erc sp rp e).outcome = Outcome.raised
            ∧ ("Check " ++ rp ++ " for details.") ∈ (schematic_erc sp rp e).prints
            ∧ (pcb_drc pp rp e).outcome = Outcome.raised
            ∧ ("Check " ++ rp ++ " for details.") ∈ (pcb_drc pp rp e).prints) := by
  refine ⟨?_, ?_, ?_⟩
  · by_cases h0 : e = 0
    · subst h0
      simp [schematic_erc]
    · by_cases h5 : e = 5 <;> simp [schematic_erc, h0, h5]
  · by_cases h0 : e = 0
    · subst h0
      simp [pcb_drc]
    · by_cases h5 : e = 5 <;> simp [pcb_drc, h0, h5]
  · intro h5
    subst h5
    refine ⟨by simp [schematic_erc], by simp [schematic_erc], by simp [pcb_drc],
      by simp [pcb_drc]⟩

/-- Claim C1, witness: at exit status 5 the ERC function prints the
message pointing at the report path. -/
theorem claim_C1_erc_drc_exit_five_witness :
    ("Check " ++ "erc_report.txt" ++ " for details.")
      ∈ (schematic_erc "sch.kicad_sch" "erc_report.txt" 5).prints :=
  ((claim_C1_erc_drc_exit_five "sch.kicad_sch" "pcb.kicad_pcb" "erc_report.txt" 5).2.2
    rfl).2.1

/-- Claim C9: every tool-invocation function other than ERC and DRC treats
every nonzero exit status (5 included) uniformly: it prints its single
generic unexpected-exit-code diagnostic carrying the numeric code and
re-raises; every function (ERC and DRC included) hands exactly one command
to the subprocess runner, so nothing is retried; and ERC and DRC do
special-case exit status 5 with a dedicated message instead. -/
theorem claim_C9_uniform_nonzero_handling
    (sp pp rp outp layers side bg : String) (mirror multipage bw persp : Bool)
    (w h zoom : Nat) (e : Nat) (he : e ≠ 0) :
    (kicad_version e).outcome = Outcome.raised
      ∧ (kicad_version e).prints =
          ["\nERROR: KiCad version check failed with an unexpected exit code ("
            ++ toString e ++ ")"]
      ∧ (kicad_version e).cmds.length = 1
      ∧ (schematic_export_pdf sp outp e).outcome = Outcome.raised
      ∧ (schematic_export_pdf sp outp e).prints =
          ["Exporting Schematic PDF...",
           "\nERROR: PDF export from the schematic failed with an unexpected exit code ("
            ++ toString e ++ ")"]
      ∧ (schematic_export_pdf sp outp e).cmds.length = 1
      ∧ (schematic_export_svg sp outp e).outcome = Outcome.raised
      ∧ (schematic_export_svg sp outp e).prints =
          ["Exporting Schematic SVG...",
           "\nERROR: SVG export from the schematic failed with an unexpected exit code ("
            ++ toString e ++ ")"]
      ∧ (schematic_export_svg sp outp e).cmds.length = 1
      ∧ (schematic_export_bom sp outp e).outcome = Outcome.raised
      ∧ (schematic_export_bom sp outp e).prints =
          ["Exporting assembly BOM...",
           "\nERROR: BOM export from the schematic failed with an unexpected exit code ("
            ++ toString e ++ ")"]
      ∧ (schematic_export_bom sp outp e).cmds.length = 1
      ∧ (pcb_export_gerbers pp outp layers e).outcome = Outcome.raised
      ∧ (pcb_export_gerbers pp outp layers e).prints =
          ["Exporting Gerbers from the PCB...",
           "\nERROR: Gerber export from the PCB failed with an unexpected exit code ("
            ++ toString e ++ ")"]
      ∧ (pcb_export_gerbers pp outp layers e).cmds.length = 1
      ∧ (pcb_export_odb pp outp e).outcome = Outcome.raised
      ∧ (pcb_export_odb pp outp e).prints =
          ["Exporting ODB++ from the PCB...",
           "\nERROR: Gerber export from the PCB failed with an unexpected exit code ("
            ++ toString e ++ ")"]
      ∧ (pcb_export_odb pp outp e).cmds.length = 1
      ∧ (pcb_export_pdf pp outp layers mirror multipage bw e).outcome = Outcome.raised
      ∧ (pcb_export_pdf pp outp layers mirror multipage bw e).prints =
          ["Exporting PDF from the PCB...",
           "\nERROR: PDF export from the PCB failed with an unexpected exit code ("
            ++ toString e ++ ")"]
      ∧ (pcb_export_pdf pp outp layers mirror multipage bw e).cmds.length = 1
      ∧ (pcb_export_drill pp outp e).outcome = Outcome.raised
      ∧ (pcb_export_drill pp outp e).prints =
          ["Exporting drill file from the PCB...",
           "\nERROR: Drill file export from the PCB failed with an unexpected exit code ("
            ++ toString e ++ ")"]
      ∧ (pcb_export_drill pp outp e).cmds.length = 1
      ∧ (pcb_export_ipcd356 pp outp e).outcome = Outcome.raised
      ∧ (pcb_export_ipcd356 pp outp e).prints =
          ["Exporting IPC-D-356 netlist from the PCB...",
           "\nERROR: IPC-D-356 netlist export from the PCB failed with an unexpected exit code ("
            ++ toString e ++ ")"]
      ∧ (pcb_export_ipcd356 pp outp e).cmds.length = 1
      ∧ (pcb_export_pos pp outp e).outcome = Outcome.raised
      ∧ (pcb_export_pos pp outp e).prints =
          ["Exporting position file from the PCB...",
           "\nERROR: position file export from the PCB failed with an unexpected exit code ("
            ++ toString e ++ ")"]
      ∧ (pcb_export_pos pp outp e).cmds.length = 1
      ∧ (pcb_render pp outp w h side bg persp zoom e).outcome = Outcome.raised
      ∧ (pcb_render pp outp w h side bg persp zoom e).prints =
          ["Generating render from the PCB...",
           "\nERROR: IPC-D-356 netlist export from the PCB failed with an unexpected exit code ("
            ++ toString e ++ ")"]
      ∧ (pcb_render pp outp w h side bg persp zoom e).cmds.length = 1
      ∧ (schematic_erc sp rp e).cmds.length = 1
      ∧ (pcb_drc pp rp e).cmds.length = 1
      ∧ (schematic_erc sp rp 5).prints =
          ["Running ERC on the schematic...",
           "\nERROR: ERC violations found in the schematic.",
           "Check " ++ rp ++ " for details."]
      ∧ (pcb_drc pp rp 5).prints =
          ["Running DRC on the PCB...",
           "\nERROR: DRC violations found in the PCB.",
           "Check " ++ rp ++ " for details."] := by
  refine ⟨?_, ?_, ?_, ?_, ?_, ?_, ?_, ?_, ?_, ?_, ?_, ?_, ?_, ?_, ?_, ?_, ?_, ?_,
    ?_, ?_, ?_, ?_, ?_, ?_, ?_, ?_, ?_, ?_, ?_, ?_, ?_, ?_, ?_, ?_, ?_, ?_, ?_⟩
  all_goals first
    | simp [kicad_version, toolRun_ne_zero _ _ _ _ he, toolRun_cmds]
    | simp [schematic_export_pdf, toolRun_ne_zero _ _ _ _ he, toolRun_cmds]
    | simp [schematic_export_svg, toolRun_ne_zero _ _ _ _ he, toolRun_cmds]
    | simp [schematic_export_bom, toolRun_ne_zero _ _ _ _ he, toolRun_cmds]
    | simp [pcb_export_gerbers, toolRun_ne_zero _ _ _ _ he, toolRun_cmds]
    | simp [pcb_export_odb, toolRun_ne_zero _ _ _ _ he, toolRun_cmds]
    | simp [pcb_export_pdf, toolRun_ne_zero _ _ _ _ he, toolRun_cmds]
    | simp [pcb_export_drill, toolRun_ne_zero _ _ _ _ he, toolRun_cmds]
    | simp [pcb_export_ipcd356, toolRun_ne_zero _ _ _ _ he, toolRun_cmds]
    | simp [pcb_export_pos, toolRun_ne_zero _ _ _ _ he, toolRun_cmds]
    | simp [pcb_render, toolRun_ne_zero _ _ _ _ he, toolRun_cmds]
    | exact schematic_erc_cmds_len sp rp e
    | exact pcb_drc_cmds_len pp rp e
    | simp [schematic_erc]
    | simp [pcb_drc]

/-- Claim C9, witness: at exit status 5 the version query raises with no
special casing. -/
theorem claim_C9_uniform_nonzero_handling_witness :
    (kicad_version 5).outcome = Outcome.raised :=
  (claim_C9_uniform_nonzero_handling "s" "p" "r" "o" "l" "top" "default"
    false false true false 1600 900 1 5 (by decide)).1

/-! ## Claims C5, C6: the SVG-to-PNG helper -/

/-- Claim C5: whenever both `scale` and `dpi` are supplied, the helper
raises the invalid-argument error immediately after the initial message:
no parsing result is consumed, the destination parent directory is not
created, and the destination file is not written. -/
theorem claim_C5_scale_dpi_exclusive (svg_path png_path : String)
    (parsed : Option Drawing) (s d : ℚ) (alpha : Bool) :
    svg_to_png svg_path png_path parsed (some s) (some d) alpha =
      ⟨["Generating " ++ png_path ++ " from " ++ svg_path ++ "..."],
       false, false, some (SvgErr.valueError "Cannot specify both scale and dpi"),
       none⟩ := by
  rfl

/-- Claim C6: for positive dimensions and a positive scale, the scaling
step multiplies both dimensions by the factor `scale / max(width, height)`,
makes the larger dimension exactly `scale`, and preserves the width-to-
height ratio. -/
theorem claim_C6_scale_preserves_ratio (dr : Drawing) (scale : ℚ)
    (hw : 0 < dr.width) (hh : 0 < dr.height) (hs : 0 < scale) :
    max (scaleDrawing scale dr).width (scaleDrawing scale dr).height = scale
      ∧ (scaleDrawing scale dr).width = dr.width * (scale / max dr.width dr.height)
      ∧ (scaleDrawing scale dr).height = dr.height * (scale / max dr.width dr.height)
      ∧ (scaleDrawing scale dr).width * dr.height
          = dr.width * (scaleDrawing scale dr).height := by
  have hmaxpos : 0 < max dr.width dr.height := lt_of_lt_of_le hw (le_max_left _ _)
  have hfpos : 0 < scale / max dr.width dr.height := div_pos hs hmaxpos
  refine ⟨?_, rfl, rfl, ?_⟩
  · simp only [scaleDrawing]
    rcases le_total dr.width dr.height with hle | hle
    · rw [max_eq_right (mul_le_mul_of_nonneg_right hle hfpos.le),
        max_eq_right hle, mul_comm, div_mul_cancel₀ _ (ne_of_gt hh)]
    · rw [max_eq_left (mul_le_mul_of_nonneg_right hle hfpos.le),
        max_eq_left hle, mul_comm, div_mul_cancel₀ _ (ne_of_gt hw)]
  · simp only [scaleDrawing]
    ring

/-- Claim C6, witness: a 4 x 2 drawing scaled to 500 gets larger dimension
exactly 500. -/
theorem claim_C6_scale_preserves_ratio_witness :
    max (scaleDrawing 500 drawingSample).width (scaleDrawing 500 drawingSample).height
      = 500 :=
  (claim_C6_scale_preserves_ratio drawingSample 500 (by norm_num [drawingSample])
    (by norm_num [drawingSample]) (by norm_num)).1

/-! ## Claim C2: sequencing of the `release` task -/

/-- In a sequential run, a failing step that was started is the last step
started: nothing after it runs. -/
theorem runSeq_fails_last (fails : Step → Bool) :
    ∀ (l : List Step) (s : Step), s ∈ runSeq fails l → fails s = true →
      (runSeq fails l).getLast? = some s := by
  intro l
  induction l with
  | nil =>
    intro s hs _
    simp [runSeq] at hs
  | cons x rest ih =>
    intro s hs hf
    by_cases hx : fails x = true
    · simp only [runSeq, if_pos hx] at hs ⊢
      simp at hs
      subst hs
      rfl
    · simp only [runSeq, if_neg hx] at hs ⊢
      rcases List.mem_cons.mp hs with h1 | h2
      · subst h1
        exact absurd hf hx
      · have hlast := ih s h2 hf
        have hne : runSeq fails rest ≠ [] := by
          intro hemp
          rw [hemp] at hlast
          simp at hlast
        rcases List.exists_cons_of_ne_nil hne with ⟨b, t, hbt⟩
        rw [hbt] at hlast ⊢
        rw [List.getLast?_cons_cons]
        exact hlast

/-- Claim C2: in every `release` run, any export step that is started is
preceded by the environment-info, ERC, and DRC steps; if ERC or DRC fails
(a check violation propagates) no export step is started; and any failing
step is the last step started, so a failure of any step aborts the rest of
the sequence. -/
theorem claim_C2_release_sequencing (fails : Step → Bool) :
    (∀ s, s ∈ releaseTrace fails → isExport s = true →
        ∃ t, Step.envInfo :: Step.erc :: Step.drc :: t = releaseTrace fails)
      ∧ ((fails Step.erc = true ∨ fails Step.drc = true) →
          ∀ s, s ∈ releaseTrace fails → isExport s = false)
      ∧ (∀ s, s ∈ releaseTrace fails → fails s = true →
          (releaseTrace fails).getLast? = some s) := by
  refine ⟨?_, ?_, ?_⟩
  · intro s hs hexp
    by_cases hEnv : fails Step.envInfo = true
    · simp only [releaseTrace, releaseSteps, runSeq, if_pos hEnv] at hs
      simp at hs
      subst hs
      simp [isExport] at hexp
    · by_cases hErc : fails Step.erc = true
      · simp only [releaseTrace, releaseSteps, runSeq, if_neg hEnv, if_pos hErc] at hs
        simp at hs
        rcases hs with hs | hs <;> subst hs <;> simp [isExport] at hexp
      · by_cases hDrc : fails Step.drc = true
        · simp only [releaseTrace, releaseSteps, runSeq, if_neg hEnv, if_neg hErc,
            if_pos hDrc] at hs
          simp at hs
          rcases hs with hs | hs | hs <;> subst hs <;> simp [isExport] at hexp
        · refine ⟨runSeq fails [Step.schPdf, Step.schSvg, Step.pngFull, Step.pngThumb,
            Step.bom, Step.gerbers, Step.drill, Step.ipcd356, Step.pdfFront,
            Step.pdfBack, Step.pos], ?_⟩
          simp only [releaseTrace, releaseSteps, runSeq, if_neg hEnv, if_neg hErc,
            if_neg hDrc]
  · intro hfail s hs
    by_cases hEnv : fails Step.envInfo = true
    · simp only [releaseTrace, releaseSteps, runSeq, if_pos hEnv] at hs
      simp at hs
      subst hs
      rfl
    · by_cases hErc : fails Step.erc = true
      · simp only [releaseTrace, releaseSteps, runSeq, if_neg hEnv, if_pos hErc] at hs
        simp at hs
        rcases hs with hs | hs <;> subst hs <;> rfl
      · by_cases hDrc : fails Step.drc = true
        · simp only [releaseTrace, releaseSteps, runSeq, if_neg hEnv, if_neg hErc,
            if_pos hDrc] at hs
          simp at hs
          rcases hs with hs | hs | hs <;> subst hs <;> rfl
        · rcases hfail with hf | hf
          · exact absurd hf hErc
          · exact absurd hf hDrc
  · intro s hs hf
    exact runSeq_fails_last fails releaseSteps s hs hf

/-- Claim C2, witness: when exactly the ERC step fails, the last step
started is the ERC step (so no export step ran after it). -/
theorem claim_C2_release_sequencing_witness :
    (releaseTrace ercFailOracle).getLast? = some Step.erc :=
  (claim_C2_release_sequencing ercFailOracle).2.2 Step.erc (by decide) (by decide)

end Tasks
